import Mathlib

/-!
Verification development for the fincart-platform order core
(`apps/orders` and `apps/cart` of the Django backend).

Shallow embedding: Django models become Lean structures, Decimal money
becomes `ℚ` (every monetary operation in the modelled code is exact
Decimal `+`/`*`/comparison, so `ℚ` is faithful), database tables become
lists of rows (newest first, matching the `-created_at` default
ordering), timestamps become `Option ℕ`, and each view action becomes a
pure function from the relevant state to a new state plus a response.
-/

namespace Fincart

/-- Order.ORDER_STATUS choices (orders/models.py). -/
inductive OrderStatus
  | pending
  | confirmed
  | processing
  | shipped
  | delivered
  | cancelled
  | refunded
deriving DecidableEq, Repr

/-- Order.PAYMENT_STATUS choices (orders/models.py). -/
inductive PaymentStatus
  | pending
  | paid
  | failed
  | refunded
  | partially_refunded
deriving DecidableEq, Repr

/-- OrderRefund.REFUND_STATUS choices (orders/models.py). -/
inductive RefundStatus
  | pending
  | processing
  | completed
  | failed
deriving DecidableEq, Repr

/-- User primary keys, abstracted. -/
abbrev UserId := ℕ

/-- The fields of products.Product that the order core reads:
current price, display name, SKU (products/models.py). -/
structure Product where
  price : ℚ
  name : String
  sku : String
deriving DecidableEq, Repr

/-- The fields of products.ProductVariant that the order core reads
(products/models.py): price adjustment over the base product price
and the variant display name. -/
structure ProductVariant where
  price_adjustment : ℚ
  name : String
deriving DecidableEq, Repr

/-- cart.CartItem (cart/models.py): a cart line for a product, an
optional variant, and a quantity (validator enforces quantity ≥ 1). -/
structure CartItem where
  product : Product
  variant : Option ProductVariant
  quantity : ℕ
deriving DecidableEq, Repr

/-- CartItem.get_unit_price: the current product price plus the variant
price adjustment when a variant is present (cart/models.py lines
105-110). -/
def CartItem.get_unit_price (ci : CartItem) : ℚ :=
  ci.product.price +
    (match ci.variant with
     | some v => v.price_adjustment
     | none => 0)

/-- CartItem.get_total_price: unit price times quantity
(cart/models.py lines 112-114). -/
def CartItem.get_total_price (ci : CartItem) : ℚ :=
  ci.get_unit_price * ci.quantity

/-- cart.Cart (cart/models.py): the list of cart lines of one user. -/
structure Cart where
  items : List CartItem
deriving DecidableEq, Repr

/-- Cart.get_total_price: sum of line totals (cart/models.py lines
30-35). -/
def Cart.get_total_price (c : Cart) : ℚ :=
  (c.items.map CartItem.get_total_price).sum

/-- Cart.is_empty (cart/models.py lines 45-47). -/
def Cart.is_empty (c : Cart) : Bool :=
  c.items.isEmpty

/-- orders.Order (orders/models.py): the fields the order workflow
reads or writes. Milestone timestamps are `Option ℕ` (null when the
milestone has not been reached). -/
structure Order where
  order_number : String
  user : UserId
  status : OrderStatus
  payment_status : PaymentStatus
  subtotal : ℚ
  shipping_cost : ℚ
  tax_amount : ℚ
  discount_amount : ℚ
  total_amount : ℚ
  payment_reference : String
  confirmed_at : Option ℕ
  shipped_at : Option ℕ
  delivered_at : Option ℕ
  cancelled_at : Option ℕ
deriving DecidableEq, Repr

/-- Order.can_be_cancelled (orders/models.py lines 155-157):
status in [pending, confirmed]. -/
def Order.can_be_cancelled (o : Order) : Bool :=
  o.status = .pending ∨ o.status = .confirmed

/-- Order.can_be_refunded (orders/models.py lines 159-161):
payment_status == paid and status not in [cancelled, refunded]. -/
def Order.can_be_refunded (o : Order) : Bool :=
  o.payment_status = .paid ∧
    ¬(o.status = .cancelled ∨ o.status = .refunded)

/-- The timestamp-updating part of Order.save (orders/models.py lines
119-136): on a save of an existing row whose status differs from the
stored one, the elif chain sets the milestone timestamp of the new
status when it is not already set. The pre_save signal
update_order_timestamps (orders/signals.py lines 10-31) runs the same
elif chain again during the same save; since each branch fires only
when the timestamp is still unset, the second run changes nothing, so
one application models both. `old_status` is the status currently
stored in the database for this row. -/
def order_save (o : Order) (old_status : OrderStatus) (now : ℕ) : Order :=
  if old_status ≠ o.status then
    if o.status = .confirmed ∧ o.confirmed_at = none then
      { o with confirmed_at := some now }
    else if o.status = .shipped ∧ o.shipped_at = none then
      { o with shipped_at := some now }
    else if o.status = .delivered ∧ o.delivered_at = none then
      { o with delivered_at := some now }
    else if o.status = .cancelled ∧ o.cancelled_at = none then
      { o with cancelled_at := some now }
    else o
  else o

/-- orders.OrderStatusHistory (orders/models.py lines 236-259): one
audit row per status change; created_by is null for system-created
rows. -/
structure HistoryRow where
  status : OrderStatus
  notes : String
  created_by : Option UserId
deriving DecidableEq, Repr

/-- orders.OrderItem (orders/models.py lines 164-233): the immutable
line-item snapshot taken at order creation. -/
structure OrderItem where
  quantity : ℕ
  unit_price : ℚ
  total_price : ℚ
  product_name : String
  product_sku : String
  variant_name : String
deriving DecidableEq, Repr

/-- orders.OrderRefund (orders/models.py lines 262-295): one row per
refund attempt; status defaults to pending. -/
structure RefundRow where
  amount : ℚ
  reason : String
  status : RefundStatus
  created_by : Option UserId
deriving DecidableEq, Repr

/-! ## Order status state machine (orders/serializers.py lines 125-149) -/

/-- The valid_transitions dict of
OrderStatusUpdateSerializer.validate_status (orders/serializers.py
lines 134-142). -/
def valid_transitions : OrderStatus → List OrderStatus
  | .pending => [.confirmed, .cancelled]
  | .confirmed => [.processing, .cancelled]
  | .processing => [.shipped, .cancelled]
  | .shipped => [.delivered]
  | .delivered => []
  | .cancelled => [.refunded]
  | .refunded => []

/-- The legal-transition table exactly as the specification states it
(spec section 4.4). Written from the words of the spec, to be compared
with `valid_transitions`, which is written from the source. -/
def spec_valid_transitions : OrderStatus → List OrderStatus
  | .pending => [.confirmed, .cancelled]
  | .confirmed => [.processing, .cancelled]
  | .processing => [.shipped, .cancelled]
  | .shipped => [.delivered]
  | .delivered => []
  | .cancelled => [.refunded]
  | .refunded => []

/-- OrderStatusUpdateSerializer.validate_status (orders/serializers.py
lines 129-149): reject the requested value unless it is listed for the
current status; the raised ValidationError message names both the
current and the requested status, modelled by the error carrying the
pair (current, requested). -/
def validate_status (current value : OrderStatus) :
    Except (OrderStatus × OrderStatus) OrderStatus :=
  if value ∈ valid_transitions current then .ok value
  else .error (current, value)

/-- Failure modes of the update_status view action. The
invalid_transition error carries the current and requested status,
mirroring the message
"Cannot change status from {current_status} to {value}". -/
inductive UpdateError
  | permission_denied
  | invalid_transition (current requested : OrderStatus)
deriving DecidableEq, Repr

/-- OrderViewSet.update_status (orders/views.py lines 224-265): deny
non-staff non-seller users; validate the transition; on success set
the status, run Order.save (milestone timestamps), and append one
OrderStatusHistory row with the new status, the acting user and the
notes. On failure the database state is returned untouched. -/
def update_status (o : Order) (history : List HistoryRow)
    (actor : UserId) (is_staff is_seller : Bool)
    (new_status : OrderStatus) (notes : String) (now : ℕ) :
    (Order × List HistoryRow) × Option UpdateError :=
  if ¬ is_staff ∧ ¬ is_seller then
    ((o, history), some .permission_denied)
  else
    match validate_status o.status new_status with
    | .error e => ((o, history), some (.invalid_transition e.1 e.2))
    | .ok v =>
        let o2 := order_save { o with status := v } o.status now
        let row : HistoryRow :=
          { status := v, notes := notes, created_by := some actor }
        ((o2, row :: history), none)

/-! ## Cancellation (orders/views.py lines 267-321) -/

/-- Failure modes of the cancel view action. -/
inductive CancelError
  | cannot_cancel
  | permission_denied
deriving DecidableEq, Repr

/-- OrderViewSet.cancel together with
process_refund_for_cancellation (orders/views.py lines 267-321):
require can_be_cancelled, require the actor to be the owner or staff,
then set status to cancelled, set cancelled_at, save, append one
history row with the reason, and, when payment_status is paid, create
an automatic OrderRefund row for the full total_amount (status
defaults to pending). -/
def cancel (o : Order) (history : List HistoryRow)
    (refunds : List RefundRow) (actor : UserId) (is_staff : Bool)
    (reason : String) (now : ℕ) :
    Except CancelError (Order × List HistoryRow × List RefundRow) :=
  if ¬ o.can_be_cancelled then .error .cannot_cancel
  else if o.user ≠ actor ∧ ¬ is_staff then .error .permission_denied
  else
    let o2 := order_save
      { o with status := .cancelled, cancelled_at := some now }
      o.status now
    let row : HistoryRow :=
      { status := .cancelled, notes := reason, created_by := some actor }
    let refunds2 :=
      if o.payment_status = .paid then
        ({ amount := o.total_amount,
           reason := "Automatic refund for cancellation: " ++ reason,
           status := .pending,
           created_by := some actor } : RefundRow) :: refunds
      else refunds
    .ok (o2, row :: history, refunds2)

/-! ## Refund creation (orders/serializers.py lines 152-177,
orders/views.py lines 323-359) -/

/-- Failure modes of refund-request validation. below_minimum models
the MinValueValidator(Decimal(0.01)) on OrderRefund.amount, which the
ModelSerializer runs as a field validator; exceeds_total models the
message "Refund amount cannot exceed order total"; only_available
carries the available balance of the message
"Only {available_refund} available for refund". -/
inductive RefundError
  | below_minimum
  | exceeds_total
  | only_available (available : ℚ)
deriving DecidableEq, Repr

/-- The aggregate of existing refund amounts used by
OrderRefundCreateSerializer.validate_amount (orders/serializers.py
lines 166-169): the sum of amounts of the refunds of the order whose
status is completed or processing. -/
def refund_sum_cp (refunds : List RefundRow) : ℚ :=
  ((refunds.filter
      (fun r => r.status = .completed ∨ r.status = .processing)).map
    RefundRow.amount).sum

/-- OrderRefundCreateSerializer.validate_amount (orders/serializers.py
lines 157-177): reject when the amount exceeds the order total; then
reject when existing completed/processing refunds plus the amount
exceed the order total, reporting the remaining available balance. -/
def validate_amount (total : ℚ) (refunds : List RefundRow) (value : ℚ) :
    Except RefundError ℚ :=
  if total < value then .error .exceeds_total
  else if total < refund_sum_cp refunds + value then
    .error (.only_available (total - refund_sum_cp refunds))
  else .ok value

/-- Full serializer validation of a refund request: the field-level
MinValueValidator(0.01) from the OrderRefund model runs first, then
validate_amount (orders/serializers.py lines 152-177,
orders/models.py lines 272-276). -/
def validate_refund_request (total : ℚ) (refunds : List RefundRow)
    (amount : ℚ) : Except RefundError ℚ :=
  if amount < 1 / 100 then .error .below_minimum
  else validate_amount total refunds amount

/-- Outcome of the create_refund view action. -/
inductive RefundOutcome
  | permission_denied
  | not_refundable
  | rejected (e : RefundError)
  | created (r : RefundRow)
deriving DecidableEq, Repr

/-- OrderViewSet.create_refund (orders/views.py lines 323-359): deny
non-staff non-seller users; require can_be_refunded; run the
serializer validation; on success persist an OrderRefund row in the
default pending status with the acting user. -/
def create_refund (o : Order) (refunds : List RefundRow)
    (actor : UserId) (is_staff is_seller : Bool)
    (amount : ℚ) (reason : String) : RefundOutcome :=
  if ¬ is_staff ∧ ¬ is_seller then .permission_denied
  else if ¬ o.can_be_refunded then .not_refundable
  else
    match validate_refund_request o.total_amount refunds amount with
    | .error e => .rejected e
    | .ok v =>
        .created
          { amount := v, reason := reason, status := .pending,
            created_by := some actor }

/-! ## Order number generation (orders/models.py lines 138-147) -/

/-- The eight random decimal digit characters of one draw of
Order.generate_order_number, which joins eight independent choices
from string.digits. A draw is encoded as the chosen eight-digit value;
the list holds its digits most significant first. -/
def order_number_digits (d : ℕ) : List Char :=
  [Nat.digitChar (d / 10000000 % 10),
   Nat.digitChar (d / 1000000 % 10),
   Nat.digitChar (d / 100000 % 10),
   Nat.digitChar (d / 10000 % 10),
   Nat.digitChar (d / 1000 % 10),
   Nat.digitChar (d / 100 % 10),
   Nat.digitChar (d / 10 % 10),
   Nat.digitChar (d % 10)]

/-- The order number built from one draw:
order_number = f"FC{random_part}" (orders/models.py line 144). -/
def format_order_number (d : ℕ) : String :=
  "FC" ++ String.mk (order_number_digits d)

/-- Order.generate_order_number (orders/models.py lines 138-147): a
while-True loop that draws a fresh random part each iteration and
returns the first candidate not already present among existing order
numbers. The loop is modelled against the stream of random draws it
will consume; `none` means the supplied draws are exhausted with the
loop still running — the source has no failure exit at all. -/
def generate_order_number (existing : List String) :
    List ℕ → Option String
  | [] => none
  | d :: rest =>
      let candidate := format_order_number d
      if candidate ∈ existing then generate_order_number existing rest
      else some candidate

/-! ## Order creation from the cart (orders/views.py lines 53-222,
orders/signals.py lines 34-45) -/

/-- The validated_data consumed by
OrderViewSet.create_order_from_cart (orders/views.py lines 122-143):
shipping_cost is read with validated_data.get, defaulting to 0. -/
structure OrderRequest where
  shipping_cost : ℚ
  shipping_method : String
  payment_method : String
  customer_notes : String
deriving DecidableEq, Repr

/-- The classified outcome of OrderViewSet.process_payment
(orders/views.py lines 177-222): success carries the transaction id of
the wallet-service response; failure carries the error string (timeout,
connection failure, non-200 detail, or unexpected exception — all are
caught and returned as a failure dict, never raised). -/
inductive PaymentResult
  | success (transaction_id : String)
  | failure (error : String)
deriving DecidableEq, Repr

/-- The cart-validation failures of OrderViewSet.get_user_cart
(orders/views.py lines 107-120), raised as
ValueError("Cart not found") and ValueError("Cart is empty"). -/
inductive CartError
  | cart_not_found
  | cart_empty
deriving DecidableEq, Repr

/-- The HTTP outcomes of OrderViewSet.create (orders/views.py lines
53-105): 201 with the order, 400 when process_payment reports failure,
500 when an exception escapes the atomic block (the cart-validation
ValueError is the modelled exception source). -/
inductive CreateResponse
  | created (order_number : String)
  | payment_failed (error : String)
  | creation_failed (e : CartError)
deriving DecidableEq, Repr

/-- The slice of database state that OrderViewSet.create touches: the
cart of the requesting user (none when no Cart row exists), and the orders,
order-item, and status-history tables. Item and history rows are keyed
by the order number of their order. Lists are newest first. -/
structure StoreState where
  cart : Option Cart
  orders : List Order
  order_items : List (String × OrderItem)
  history : List (String × HistoryRow)
deriving DecidableEq, Repr

/-- OrderViewSet.get_user_cart (orders/views.py lines 107-120): fetch
the cart, raising when it does not exist or has no items. -/
def get_user_cart (cart : Option Cart) : Except CartError Cart :=
  match cart with
  | none => .error .cart_not_found
  | some c => if c.items.isEmpty then .error .cart_empty else .ok c

/-- One OrderItem row as built by the loop of
OrderViewSet.create_order_from_cart (orders/views.py lines 146-161):
the unit and total price are computed from the cart item, and the
product name, SKU and variant name are copied as plain-text
snapshots. -/
def order_item_of_cart_item (ci : CartItem) : OrderItem :=
  { quantity := ci.quantity,
    unit_price := ci.get_unit_price,
    total_price := ci.get_total_price,
    product_name := ci.product.name,
    product_sku := ci.product.sku,
    variant_name :=
      match ci.variant with
      | some v => v.name
      | none => "" }

/-- The fixed VAT rate of OrderViewSet.create_order_from_cart:
Decimal("0.125") (orders/views.py line 127). -/
def tax_rate : ℚ := 125 / 1000

/-- OrderViewSet.create_order_from_cart (orders/views.py lines
122-166). Computes subtotal = cart.get_total_price(), tax = subtotal ×
tax_rate, total = subtotal + shipping_cost + tax (discount_amount is
left at its model default 0). Persists the Order (status and
payment_status default to pending), one OrderItem per cart line, and
two pending OrderStatusHistory rows: the post_save signal
create_initial_status_history (orders/signals.py lines 34-45) fires
inside Order.objects.create with created_by None, and the view then
calls create_status_history(order, "pending", "Order created") with
the requesting user (orders/views.py line 164, lines 168-175).
Returns the order, its item rows, and the appended history rows newest
first. `onum` is the freshly generated order number that Order.save
assigns on first save (orders/models.py lines 119-121).
Registration of the signal receivers lives in Django app
configuration that is not part of the repository sources; the
specification describes the source as wiring signal-based side effects
that create history rows (spec section 9), so the receivers are
modelled as connected. -/
def create_order_from_cart (cart : Cart) (user : UserId)
    (req : OrderRequest) (onum : String) :
    Order × List OrderItem × List HistoryRow :=
  let subtotal := cart.get_total_price
  let shipping := req.shipping_cost
  let tax := subtotal * tax_rate
  let total := subtotal + shipping + tax
  let order : Order :=
    { order_number := onum,
      user := user,
      status := .pending,
      payment_status := .pending,
      subtotal := subtotal,
      shipping_cost := shipping,
      tax_amount := tax,
      discount_amount := 0,
      total_amount := total,
      payment_reference := "",
      confirmed_at := none,
      shipped_at := none,
      delivered_at := none,
      cancelled_at := none }
  let items := cart.items.map order_item_of_cart_item
  let signal_row : HistoryRow :=
    { status := .pending, notes := "Order created", created_by := none }
  let view_row : HistoryRow :=
    { status := .pending, notes := "Order created",
      created_by := some user }
  (order, items, [view_row, signal_row])

/-- OrderViewSet.create (orders/views.py lines 53-105). Inside one
transaction.atomic block: validate the cart, build the order, call the
payment gateway. On payment success: mark the order paid and
confirmed, store the payment reference, set confirmed_at, save, append
a confirmed history row, delete all cart items, respond 201. On
payment failure the code returns a 400 response from inside the atomic
block; transaction.atomic rolls back only when the block exits with an
exception, so this normal return commits the order, its items and the
pending history rows (the inline comment "rollback will happen
automatically" notwithstanding), and the cart is not cleared. A
cart-validation error is an exception, so there the block rolls back
and nothing is written. -/
def order_create (st : StoreState) (user : UserId) (req : OrderRequest)
    (onum : String) (pay : PaymentResult) (now : ℕ) :
    StoreState × CreateResponse :=
  match get_user_cart st.cart with
  | .error e => (st, .creation_failed e)
  | .ok cart =>
      let built := create_order_from_cart cart user req onum
      let order := built.1
      let items := built.2.1.map (fun it => (onum, it))
      let created_history := (built.2.2.map (fun h => (onum, h)))
      match pay with
      | .failure err =>
          ({ st with
              orders := order :: st.orders,
              order_items := items ++ st.order_items,
              history := created_history ++ st.history },
           .payment_failed err)
      | .success tid =>
          let confirmed := order_save
            { order with
                payment_status := .paid,
                payment_reference := tid,
                status := .confirmed,
                confirmed_at := some now }
            order.status now
          let confirm_row : HistoryRow :=
            { status := .confirmed,
              notes := "Order confirmed after payment",
              created_by := some user }
          ({ st with
              cart := some { items := [] },
              orders := confirmed :: st.orders,
              order_items := items ++ st.order_items,
              history := (onum, confirm_row) :: created_history
                ++ st.history },
           .created onum)

/-! ## Helper lemmas -/

lemma order_save_status (o : Order) (old : OrderStatus) (now : ℕ) :
    (order_save o old now).status = o.status := by
  unfold order_save
  split_ifs <;> rfl

lemma order_save_money (o : Order) (old : OrderStatus) (now : ℕ) :
    (order_save o old now).subtotal = o.subtotal ∧
    (order_save o old now).shipping_cost = o.shipping_cost ∧
    (order_save o old now).tax_amount = o.tax_amount ∧
    (order_save o old now).discount_amount = o.discount_amount ∧
    (order_save o old now).total_amount = o.total_amount := by
  unfold order_save
  split_ifs <;> exact ⟨rfl, rfl, rfl, rfl, rfl⟩

lemma order_save_confirmed_at (o : Order) (old : OrderStatus) (now : ℕ)
    (h : old ≠ o.status) :
    (order_save o old now).confirmed_at =
      if o.status = .confirmed then some (o.confirmed_at.getD now)
      else o.confirmed_at := by
  unfold order_save
  rw [if_pos h]
  rcases hval : o.confirmed_at with _ | t <;>
    split_ifs with h1 h2 h3 h4 h5 <;> simp_all

lemma order_save_shipped_at (o : Order) (old : OrderStatus) (now : ℕ)
    (h : old ≠ o.status) :
    (order_save o old now).shipped_at =
      if o.status = .shipped then some (o.shipped_at.getD now)
      else o.shipped_at := by
  unfold order_save
  rw [if_pos h]
  rcases hval : o.shipped_at with _ | t <;>
    split_ifs with h1 h2 h3 h4 h5 <;> simp_all

lemma order_save_delivered_at (o : Order) (old : OrderStatus) (now : ℕ)
    (h : old ≠ o.status) :
    (order_save o old now).delivered_at =
      if o.status = .delivered then some (o.delivered_at.getD now)
      else o.delivered_at := by
  unfold order_save
  rw [if_pos h]
  rcases hval : o.delivered_at with _ | t <;>
    split_ifs with h1 h2 h3 h4 h5 <;> simp_all

lemma order_save_cancelled_at (o : Order) (old : OrderStatus) (now : ℕ)
    (h : old ≠ o.status) :
    (order_save o old now).cancelled_at =
      if o.status = .cancelled then some (o.cancelled_at.getD now)
      else o.cancelled_at := by
  unfold order_save
  rw [if_pos h]
  rcases hval : o.cancelled_at with _ | t <;>
    split_ifs with h1 h2 h3 h4 h5 <;> simp_all

/-- The transition table of the source serializer agrees with the
table as the specification writes it. -/
lemma valid_transitions_eq_spec (c : OrderStatus) :
    valid_transitions c = spec_valid_transitions c := by
  cases c <;> rfl

/-- No legal transition is a self-loop. -/
lemma mem_valid_transitions_ne (c v : OrderStatus)
    (h : v ∈ valid_transitions c) : c ≠ v := by
  cases c <;> cases v <;> revert h <;> decide

/-! ## Sample data for witnesses and counterexamples -/

/-- The cart of spec scenario A: qty 2 at 10.00 and qty 1 at 5.00. -/
def scenario_cart : Cart :=
  { items :=
      [{ product := { price := 10, name := "widget", sku := "W1" },
         variant := none, quantity := 2 },
       { product := { price := 5, name := "gadget", sku := "G1" },
         variant := none, quantity := 1 }] }

/-- Initial store state holding the scenario A cart and empty tables. -/
def scenario_state : StoreState :=
  { cart := some scenario_cart, orders := [], order_items := [],
    history := [] }

/-- An order request with shipping cost 3.00 (spec scenario A). -/
def scenario_req : OrderRequest :=
  { shipping_cost := 3, shipping_method := "", payment_method := "wallet",
    customer_notes := "" }

/-- A delivered order (spec scenario C). -/
def delivered_order : Order :=
  { order_number := "FC12345678", user := 7, status := .delivered,
    payment_status := .paid, subtotal := 25, shipping_cost := 3,
    tax_amount := 25 * (125 / 1000), discount_amount := 0,
    total_amount := 100, payment_reference := "tx1",
    confirmed_at := some 1, shipped_at := some 2, delivered_at := some 3,
    cancelled_at := none }

/-- A pending unpaid order with no milestone timestamps. -/
def pending_order : Order :=
  { order_number := "FC20000001", user := 7, status := .pending,
    payment_status := .pending, subtotal := 25, shipping_cost := 3,
    tax_amount := 25 * (125 / 1000), discount_amount := 0,
    total_amount := 100, payment_reference := "",
    confirmed_at := none, shipped_at := none, delivered_at := none,
    cancelled_at := none }

/-- A confirmed, paid order with total 100.00 (spec scenarios D, E). -/
def paid_confirmed_order : Order :=
  { order_number := "FC30000001", user := 7, status := .confirmed,
    payment_status := .paid, subtotal := 25, shipping_cost := 3,
    tax_amount := 25 * (125 / 1000), discount_amount := 0,
    total_amount := 100, payment_reference := "tx2",
    confirmed_at := some 2, shipped_at := none, delivered_at := none,
    cancelled_at := none }

/-! ## Claim theorems -/

/-- C2: for every order and every requested status transition not
listed in the legal-transition table of the specification, the
update_status operation (with an actor passing the staff/seller
permission gate) fails with the invalid-transition error naming the
current and the requested status, and the order and its history are
returned unchanged. -/
theorem C2_invalid_transition_rejected
    (o : Order) (history : List HistoryRow) (actor : UserId)
    (is_staff is_seller : Bool) (ns : OrderStatus) (notes : String)
    (now : ℕ)
    (hperm : is_staff = true ∨ is_seller = true)
    (hmem : ns ∉ spec_valid_transitions o.status) :
    update_status o history actor is_staff is_seller ns notes now =
      ((o, history), some (.invalid_transition o.status ns)) := by
  have hmem2 : ns ∉ valid_transitions o.status := by
    rw [valid_transitions_eq_spec]; exact hmem
  unfold update_status
  have hpermif : ¬(¬is_staff ∧ ¬is_seller) := by
    rcases hperm with h | h <;> simp [h]
  rw [if_neg hpermif]
  simp [validate_status, hmem2]

/-- C2 witness: spec scenario C, a delivered order cannot be moved
back to shipped; the state is untouched and the error names both
statuses. -/
theorem C2_witness :
    update_status delivered_order [] 3 true false .shipped "" 9 =
      ((delivered_order, []),
       some (.invalid_transition .delivered .shipped)) :=
  C2_invalid_transition_rejected delivered_order [] 3 true false
    .shipped "" 9 (Or.inl rfl) (by decide)

/-- C7: every accepted status transition updates the status field to
the requested status, sets the first-time milestone timestamp for that
status when it is unset and leaves it unchanged when it is set, leaves
the other milestone timestamps unchanged, and appends exactly one
history row recording the new status, the acting user and the
notes. -/
theorem C7_accepted_transition_effects
    (o : Order) (history : List HistoryRow) (actor : UserId)
    (ns : OrderStatus) (notes : String) (now : ℕ)
    (hmem : ns ∈ valid_transitions o.status) :
    ∃ o2, update_status o history actor true false ns notes now =
        ((o2, ({ status := ns, notes := notes,
                 created_by := some actor } : HistoryRow) :: history),
         none) ∧
      o2.status = ns ∧
      (ns = .confirmed → o2.confirmed_at = some (o.confirmed_at.getD now)) ∧
      (ns ≠ .confirmed → o2.confirmed_at = o.confirmed_at) ∧
      (ns = .shipped → o2.shipped_at = some (o.shipped_at.getD now)) ∧
      (ns ≠ .shipped → o2.shipped_at = o.shipped_at) ∧
      (ns = .delivered → o2.delivered_at = some (o.delivered_at.getD now)) ∧
      (ns ≠ .delivered → o2.delivered_at = o.delivered_at) ∧
      (ns = .cancelled → o2.cancelled_at = some (o.cancelled_at.getD now)) ∧
      (ns ≠ .cancelled → o2.cancelled_at = o.cancelled_at) := by
  have hne : o.status ≠ ns := mem_valid_transitions_ne _ _ hmem
  refine ⟨order_save { o with status := ns } o.status now,
    ?_, ?_, ?_, ?_, ?_, ?_, ?_, ?_, ?_, ?_⟩
  · unfold update_status
    simp [validate_status, hmem]
  · rw [order_save_status]
  · intro hns
    rw [order_save_confirmed_at _ _ _ hne]
    simp [hns]
  · intro hns
    rw [order_save_confirmed_at _ _ _ hne]
    simp [hns]
  · intro hns
    rw [order_save_shipped_at _ _ _ hne]
    simp [hns]
  · intro hns
    rw [order_save_shipped_at _ _ _ hne]
    simp [hns]
  · intro hns
    rw [order_save_delivered_at _ _ _ hne]
    simp [hns]
  · intro hns
    rw [order_save_delivered_at _ _ _ hne]
    simp [hns]
  · intro hns
    rw [order_save_cancelled_at _ _ _ hne]
    simp [hns]
  · intro hns
    rw [order_save_cancelled_at _ _ _ hne]
    simp [hns]

/-- C7 witness: confirming a pending order appends one confirmed
history row with the actor and sets confirmed_at for the first
time. -/
theorem C7_witness :
    ∃ o2, update_status pending_order [] 3 true false .confirmed "ok" 11 =
        ((o2, [({ status := .confirmed, notes := "ok",
                  created_by := some 3 } : HistoryRow)]), none) ∧
      o2.status = .confirmed ∧ o2.confirmed_at = some 11 := by
  obtain ⟨o2, h1, h2, h3, -⟩ :=
    C7_accepted_transition_effects pending_order [] 3 .confirmed "ok" 11
      (by decide)
  exact ⟨o2, h1, h2, by simpa [pending_order] using h3 rfl⟩

/-- C1: every successful order creation from a non-empty cart persists
an Order satisfying total_amount = subtotal + shipping_cost +
tax_amount − discount_amount, whose subtotal is the sum over cart
lines of unit price × quantity with unit price = product price plus
the variant price adjustment when a variant is present, whose
tax_amount is subtotal × 12.5%, and whose OrderItem rows have
total_price summing to the subtotal. -/
theorem C1_order_money_invariants
    (st : StoreState) (cart : Cart) (user : UserId) (req : OrderRequest)
    (onum tid : String) (now : ℕ)
    (hc : st.cart = some cart) (hne : cart.items ≠ []) :
    ∃ o, (order_create st user req onum (.success tid) now).1.orders =
        o :: st.orders ∧
      (order_create st user req onum (.success tid) now).1.order_items =
        cart.items.map (fun ci => (onum, order_item_of_cart_item ci))
          ++ st.order_items ∧
      o.total_amount =
        o.subtotal + o.shipping_cost + o.tax_amount - o.discount_amount ∧
      o.subtotal = (cart.items.map (fun ci =>
        (ci.product.price +
          (match ci.variant with
           | some v => v.price_adjustment
           | none => (0 : ℚ))) * (ci.quantity : ℚ))).sum ∧
      o.tax_amount = o.subtotal * (125 / 1000) ∧
      ((cart.items.map order_item_of_cart_item).map
          OrderItem.total_price).sum = o.subtotal := by
  have hmt : cart.items.isEmpty = false := by
    cases h : cart.items with
    | nil => exact absurd h hne
    | cons a l => rfl
  refine ⟨order_save
      { (create_order_from_cart cart user req onum).1 with
          payment_status := .paid, payment_reference := tid,
          status := .confirmed, confirmed_at := some now }
      (create_order_from_cart cart user req onum).1.status now,
    ?_, ?_, ?_, ?_, ?_, ?_⟩
  · unfold order_create get_user_cart
    rw [hc]
    simp [hmt]
  · unfold order_create get_user_cart
    rw [hc]
    simp [hmt, create_order_from_cart, List.map_map]
  · obtain ⟨m1, m2, m3, m4, m5⟩ := order_save_money
      { (create_order_from_cart cart user req onum).1 with
          payment_status := .paid, payment_reference := tid,
          status := .confirmed, confirmed_at := some now }
      (create_order_from_cart cart user req onum).1.status now
    rw [m1, m2, m3, m4, m5]
    show cart.get_total_price + req.shipping_cost
          + cart.get_total_price * tax_rate
        = cart.get_total_price + req.shipping_cost
          + cart.get_total_price * tax_rate - 0
    ring
  · obtain ⟨m1, -⟩ := order_save_money
      { (create_order_from_cart cart user req onum).1 with
          payment_status := .paid, payment_reference := tid,
          status := .confirmed, confirmed_at := some now }
      (create_order_from_cart cart user req onum).1.status now
    rw [m1]
    rfl
  · obtain ⟨m1, -, m3, -⟩ := order_save_money
      { (create_order_from_cart cart user req onum).1 with
          payment_status := .paid, payment_reference := tid,
          status := .confirmed, confirmed_at := some now }
      (create_order_from_cart cart user req onum).1.status now
    rw [m1, m3]
    rfl
  · obtain ⟨m1, -⟩ := order_save_money
      { (create_order_from_cart cart user req onum).1 with
          payment_status := .paid, payment_reference := tid,
          status := .confirmed, confirmed_at := some now }
      (create_order_from_cart cart user req onum).1.status now
    rw [m1]
    rw [List.map_map]
    rfl

/-- C1 witness: spec scenario A — cart lines qty 2 at 10.00 and qty 1
at 5.00 with shipping 3.00 give subtotal 25.00, tax 3.125 and total
satisfying the money invariant. -/
theorem C1_witness :
    ∃ o, (order_create scenario_state 7 scenario_req "FC00000001"
        (.success "t") 4).1.orders = [o] ∧
      o.subtotal = 25 ∧ o.tax_amount = 25 * (125 / 1000) ∧
      o.total_amount =
        o.subtotal + o.shipping_cost + o.tax_amount - o.discount_amount := by
  obtain ⟨o, h1, h2, h3, h4, h5, h6⟩ :=
    C1_order_money_invariants scenario_state scenario_cart 7 scenario_req
      "FC00000001" "t" 4 rfl (by decide)
  refine ⟨o, by simpa [scenario_state] using h1, ?_, ?_, h3⟩
  · rw [h4]; norm_num [scenario_cart]
  · rw [h5, h4]; norm_num [scenario_cart]

/-- C3 counterexample: on a concrete successful creation from a
two-line cart, the history table holds two rows with status pending
for the new order (the signal-created row and the explicitly created
row), not exactly one. -/
theorem C3_counterexample :
    ((order_create scenario_state 7 scenario_req "FC00000004"
        (.success "t") 4).1.history.filter
      (fun p => p.1 = "FC00000004" ∧
        p.2.status = OrderStatus.pending)).length = 2 := by
  decide

/-- C3 (amended): successful order creation persists, atomically, the
Order, one OrderItem per distinct cart line with frozen product and
variant name snapshots, and exactly two initial OrderStatusHistory
rows with status pending — one created by the post-save signal with no
actor and one appended explicitly by the view with the acting user —
followed by one confirmed row; and the cart is empty immediately after
successful creation. -/
theorem C3_creation_effects
    (st : StoreState) (cart : Cart) (user : UserId) (req : OrderRequest)
    (onum tid : String) (now : ℕ)
    (hc : st.cart = some cart) (hne : cart.items ≠ []) :
    (order_create st user req onum (.success tid) now).2 =
      .created onum ∧
    (order_create st user req onum (.success tid) now).1.cart =
      some { items := [] } ∧
    (∃ o, (order_create st user req onum (.success tid) now).1.orders =
      o :: st.orders) ∧
    (order_create st user req onum (.success tid) now).1.order_items =
      cart.items.map (fun ci => (onum, order_item_of_cart_item ci))
        ++ st.order_items ∧
    (∀ ci ∈ cart.items,
      (order_item_of_cart_item ci).product_name = ci.product.name ∧
      (order_item_of_cart_item ci).product_sku = ci.product.sku ∧
      (order_item_of_cart_item ci).variant_name =
        (match ci.variant with | some v => v.name | none => "")) ∧
    (order_create st user req onum (.success tid) now).1.history =
      (onum, ({ status := .confirmed,
                notes := "Order confirmed after payment",
                created_by := some user } : HistoryRow)) ::
      (onum, ({ status := .pending, notes := "Order created",
                created_by := some user } : HistoryRow)) ::
      (onum, ({ status := .pending, notes := "Order created",
                created_by := none } : HistoryRow)) :: st.history := by
  have hmt : cart.items.isEmpty = false := by
    cases h : cart.items with
    | nil => exact absurd h hne
    | cons a l => rfl
  refine ⟨?_, ?_, ?_, ?_, ?_, ?_⟩
  · unfold order_create get_user_cart
    rw [hc]
    simp [hmt]
  · unfold order_create get_user_cart
    rw [hc]
    simp [hmt]
  · refine ⟨order_save
      { (create_order_from_cart cart user req onum).1 with
          payment_status := .paid, payment_reference := tid,
          status := .confirmed, confirmed_at := some now }
      (create_order_from_cart cart user req onum).1.status now, ?_⟩
    unfold order_create get_user_cart
    rw [hc]
    simp [hmt]
  · unfold order_create get_user_cart
    rw [hc]
    simp [hmt, create_order_from_cart, List.map_map]
  · intro ci _
    exact ⟨rfl, rfl, rfl⟩
  · unfold order_create get_user_cart
    rw [hc]
    simp [hmt, create_order_from_cart]

/-- C3 witness for the amended claim: a concrete successful creation
empties the cart and writes the confirmed row plus the two pending
rows. -/
theorem C3_creation_effects_witness :
    (order_create scenario_state 7 scenario_req "FC00000003"
        (.success "t") 4).1.cart = some { items := [] } ∧
    (order_create scenario_state 7 scenario_req "FC00000003"
        (.success "t") 4).1.history =
      [("FC00000003", ({ status := .confirmed,
                         notes := "Order confirmed after payment",
                         created_by := some 7 } : HistoryRow)),
       ("FC00000003", ({ status := .pending,
                         notes := "Order created",
                         created_by := some 7 } : HistoryRow)),
       ("FC00000003", ({ status := .pending,
                         notes := "Order created",
                         created_by := none } : HistoryRow))] := by
  obtain ⟨-, h2, -, -, -, h6⟩ :=
    C3_creation_effects scenario_state scenario_cart 7 scenario_req
      "FC00000003" "t" 4 rfl (by decide)
  exact ⟨h2, by simpa [scenario_state] using h6⟩

/-- C4: evaluating OrderViewSet.create at a concrete payment-gateway
timeout. The response reports the failure and the order is not left
confirmed or paid, and the cart is unchanged — but the Order, both
OrderItem rows and both pending history rows remain persisted, because
the 400 response returns normally out of the transaction.atomic block
and a normal exit commits. -/
theorem C4_payment_failure_commits :
    (order_create scenario_state 7 scenario_req "FC00000005"
        (.failure "Payment service timeout") 4).2 =
      .payment_failed "Payment service timeout" ∧
    (order_create scenario_state 7 scenario_req "FC00000005"
        (.failure "Payment service timeout") 4).1.cart =
      some scenario_cart ∧
    (order_create scenario_state 7 scenario_req "FC00000005"
        (.failure "Payment service timeout") 4).1.orders.length = 1 ∧
    ((order_create scenario_state 7 scenario_req "FC00000005"
        (.failure "Payment service timeout") 4).1.orders.map
      Order.status) = [.pending] ∧
    ((order_create scenario_state 7 scenario_req "FC00000005"
        (.failure "Payment service timeout") 4).1.orders.map
      Order.payment_status) = [.pending] ∧
    (order_create scenario_state 7 scenario_req "FC00000005"
        (.failure "Payment service timeout") 4).1.order_items.length
      = 2 ∧
    ((order_create scenario_state 7 scenario_req "FC00000005"
        (.failure "Payment service timeout") 4).1.history.filter
      (fun p => p.2.status = OrderStatus.pending)).length = 2 :=
  ⟨rfl, rfl, rfl, rfl, rfl, rfl, rfl⟩

/-- C8: order creation fails when the cart does not exist or has zero
items, with the corresponding cart error, and the whole store state is
returned unchanged (the exception aborts the transaction before any
write). -/
theorem C8_empty_cart_read_only
    (st : StoreState) (user : UserId) (req : OrderRequest)
    (onum : String) (pay : PaymentResult) (now : ℕ)
    (h : st.cart = none ∨ ∃ c, st.cart = some c ∧ c.items = []) :
    (order_create st user req onum pay now).1 = st ∧
      ((order_create st user req onum pay now).2 =
          .creation_failed .cart_not_found ∨
        (order_create st user req onum pay now).2 =
          .creation_failed .cart_empty) := by
  rcases h with h | ⟨c, hc, hcempty⟩
  · unfold order_create get_user_cart
    rw [h]
    exact ⟨rfl, Or.inl rfl⟩
  · unfold order_create get_user_cart
    rw [hc]
    have he : c.items.isEmpty = true := by simp [hcempty]
    simp [he]

/-- A store state whose cart exists but holds zero items. -/
def empty_cart_state : StoreState :=
  { cart := some { items := [] }, orders := [], order_items := [],
    history := [] }

/-- C8 witness: creation against an existing zero-item cart leaves the
state untouched and reports the empty-cart failure. -/
theorem C8_witness :
    (order_create empty_cart_state 7 scenario_req "FC00000006"
        (.success "t") 4).1 = empty_cart_state ∧
      ((order_create empty_cart_state 7 scenario_req "FC00000006"
          (.success "t") 4).2 = .creation_failed .cart_not_found ∨
        (order_create empty_cart_state 7 scenario_req "FC00000006"
          (.success "t") 4).2 = .creation_failed .cart_empty) :=
  C8_empty_cart_read_only empty_cart_state 7 scenario_req "FC00000006"
    (.success "t") 4 (Or.inr ⟨{ items := [] }, rfl, rfl⟩)

/-- C5: for every manual refund request on a refundable order, the
request is rejected whenever the amount exceeds the order total minus
the sum of existing completed/processing refunds — with the
exceeds-total error when the amount exceeds even the order total, and
otherwise with the error carrying the available balance. -/
theorem C5_refund_exceeds_balance
    (o : Order) (refunds : List RefundRow) (actor : UserId)
    (amount : ℚ) (reason : String)
    (href : o.can_be_refunded = true)
    (hexceed : o.total_amount - refund_sum_cp refunds < amount) :
    create_refund o refunds actor true false amount reason =
      .rejected
        (if amount < 1 / 100 then .below_minimum
         else if o.total_amount < amount then .exceeds_total
         else .only_available
           (o.total_amount - refund_sum_cp refunds)) := by
  unfold create_refund validate_refund_request validate_amount
  rw [if_neg (by simp), if_neg (by simp [href])]
  split_ifs with h1 h2 h3
  · rfl
  · rfl
  · rfl
  · exact absurd (show o.total_amount < refund_sum_cp refunds + amount
      by linarith) h3

/-- C5 witness: spec scenario D — order total 100.00 with a completed
refund of 60.00; a second request for 50.00 is rejected with available
balance 40.00. -/
theorem C5_witness :
    create_refund paid_confirmed_order
      [({ amount := 60, reason := "damaged", status := .completed,
          created_by := none } : RefundRow)] 9 true false 50 "late" =
      .rejected (.only_available 40) := by
  have h := C5_refund_exceeds_balance paid_confirmed_order
    [({ amount := 60, reason := "damaged", status := .completed,
        created_by := none } : RefundRow)] 9 50 "late" (by decide)
    (by norm_num [paid_confirmed_order, refund_sum_cp])
  rw [h]
  norm_num [paid_confirmed_order, refund_sum_cp]

/-- C6: the cancel operation succeeds only when the order status is
pending or confirmed; when it succeeds on a paid order, the status
becomes cancelled, cancelled_at is set to the cancellation time, one
cancelled history row is appended, and an automatic OrderRefund row
for the full order total is created in pending status. -/
theorem C6_cancel_effects
    (o : Order) (history : List HistoryRow) (refunds : List RefundRow)
    (actor : UserId) (is_staff : Bool) (reason : String) (now : ℕ) :
    (∀ res, cancel o history refunds actor is_staff reason now =
        .ok res → o.status = .pending ∨ o.status = .confirmed) ∧
    (∀ o2 h2 r2, o.payment_status = .paid →
      cancel o history refunds actor is_staff reason now =
        .ok (o2, h2, r2) →
      o2.status = .cancelled ∧ o2.cancelled_at = some now ∧
      h2 = ({ status := .cancelled, notes := reason,
              created_by := some actor } : HistoryRow) :: history ∧
      r2 = ({ amount := o.total_amount,
              reason := "Automatic refund for cancellation: " ++ reason,
              status := .pending,
              created_by := some actor } : RefundRow) :: refunds) := by
  constructor
  · intro res hres
    by_cases hcc : o.can_be_cancelled
    · have := hcc
      simp only [Order.can_be_cancelled, decide_eq_true_eq] at this
      exact this
    · unfold cancel at hres
      rw [if_pos (by simpa using hcc)] at hres
      exact absurd hres (by simp)
  · intro o2 h2 r2 hpaid hres
    unfold cancel at hres
    by_cases hcc : o.can_be_cancelled = true
    · rw [if_neg (not_not_intro hcc)] at hres
      by_cases hperm : o.user ≠ actor ∧ ¬(is_staff = true)
      · rw [if_pos hperm] at hres
        exact absurd hres (by simp)
      · rw [if_neg hperm, if_pos hpaid] at hres
        have hstat : o.status = .pending ∨ o.status = .confirmed := by
          simpa only [Order.can_be_cancelled, decide_eq_true_eq]
            using hcc
        have hne : o.status ≠
            ({ o with status := OrderStatus.cancelled,
                      cancelled_at := some now } : Order).status := by
          show o.status ≠ .cancelled
          rcases hstat with h | h <;> simp [h]
        simp only [Except.ok.injEq, Prod.mk.injEq] at hres
        obtain ⟨ho2, hh2, hr2⟩ := hres
        refine ⟨?_, ?_, hh2.symm, hr2.symm⟩
        · rw [← ho2, order_save_status]
        · rw [← ho2, order_save_cancelled_at _ _ _ hne]
          simp
    · rw [if_pos hcc] at hres
      exact absurd hres (by simp)

/-- C6 witness: spec scenario E — cancelling a confirmed, paid order
succeeds, sets status cancelled and cancelled_at, and creates the
automatic full-amount pending refund. -/
theorem C6_witness :
    ∃ o2 h2 r2,
      cancel paid_confirmed_order [] [] 7 false "no" 9 =
        .ok (o2, h2, r2) ∧
      o2.status = .cancelled ∧ o2.cancelled_at = some 9 ∧
      r2 = [({ amount := 100,
               reason := "Automatic refund for cancellation: no",
               status := .pending,
               created_by := some 7 } : RefundRow)] := by
  have hrun : cancel paid_confirmed_order [] [] 7 false "no" 9 =
      .ok ({ paid_confirmed_order with status := .cancelled,
                                       cancelled_at := some 9 },
           [({ status := .cancelled, notes := "no",
                                     created_by := some 7 } : HistoryRow)],
           [({ amount := 100,
               reason := "Automatic refund for cancellation: no",
               status := .pending,
               created_by := some 7 } : RefundRow)]) := by
    rfl
  have h := (C6_cancel_effects paid_confirmed_order [] [] 7 false
    "no" 9).2 _ _ _ rfl hrun
  exact ⟨_, _, _, hrun, h.1, h.2.1, h.2.2.2⟩

/-- Every decimal digit value renders as a digit character. -/
lemma digitChar_lt_ten_isDigit : ∀ k < 10, (Nat.digitChar k).isDigit = true := by
  decide

/-- C9 counterexample: there is no attempt bound within which
order-number generation always terminates — for any candidate bound,
an existing-number set and a draw stream of that length exist on which
the while-True loop is still running (and the source has no
OrderCreationFailed exit at all). -/
theorem C9_counterexample :
    ¬ ∃ N : ℕ, ∀ (existing : List String) (draws : List ℕ),
        draws.length = N →
        generate_order_number existing draws ≠ none := by
  rintro ⟨N, hN⟩
  have hrep : ∀ k, generate_order_number [format_order_number 0]
      (List.replicate k 0) = none := by
    intro k
    induction k with
    | zero => rfl
    | succ k ih =>
        rw [List.replicate_succ]
        simp only [generate_order_number]
        rw [if_pos (by simp)]
        exact ih
  exact hN [format_order_number 0] (List.replicate N 0)
    (List.length_replicate _ _) (hrep N)

/-- C9 (amended): order-number generation produces a number of the
form FC followed by 8 random digits and, on collision with an existing
order number, re-rolls transparently with no attempt bound and no
failure surfacing; it terminates exactly when a draw avoids the
existing set, returning the first such candidate. -/
theorem C9_generation_first_fresh
    (existing : List String) (draws : List ℕ) (d : ℕ)
    (hd : d ∈ draws) (hfresh : format_order_number d ∉ existing) :
    ∃ d2, d2 ∈ draws ∧ format_order_number d2 ∉ existing ∧
      generate_order_number existing draws =
        some (format_order_number d2) ∧
      (format_order_number d2).toList =
        'F' :: 'C' :: order_number_digits d2 ∧
      (order_number_digits d2).length = 8 ∧
      ∀ c ∈ order_number_digits d2, c.isDigit = true := by
  induction draws with
  | nil => cases hd
  | cons d0 rest ih =>
      by_cases h0 : format_order_number d0 ∈ existing
      · have hd2 : d ∈ rest := by
          rcases List.mem_cons.mp hd with rfl | hmem
          · exact absurd h0 hfresh
          · exact hmem
        obtain ⟨d2, hmem, hf, hgen, hlist, hlen, hdig⟩ := ih hd2
        refine ⟨d2, List.mem_cons_of_mem _ hmem, hf, ?_, hlist, hlen,
          hdig⟩
        simpa [generate_order_number, h0] using hgen
      · refine ⟨d0, List.mem_cons_self _ _, h0, ?_, rfl, rfl, ?_⟩
        · simp [generate_order_number, h0]
        · intro c hc
          simp only [order_number_digits, List.mem_cons,
            List.not_mem_nil, or_false] at hc
          rcases hc with rfl | rfl | rfl | rfl | rfl | rfl | rfl | rfl
            <;> exact digitChar_lt_ten_isDigit _
              (Nat.mod_lt _ (by norm_num))

/-- C9 witness: with no existing orders, a single draw is returned
directly as FC followed by its 8 digits. -/
theorem C9_witness :
    generate_order_number [] [1234567] =
      some (format_order_number 1234567) := by
  obtain ⟨d2, hmem, -, hgen, -, -, -⟩ :=
    C9_generation_first_fresh [] [1234567] 1234567 (by decide)
      (by simp)
  have hd : d2 = 1234567 := by simpa using hmem
  rw [hd] at hgen
  exact hgen

/-- Pending and failed refund rows fall out of the completed or
processing aggregate. -/
lemma refund_sum_cp_of_pf (l : List RefundRow)
    (h : ∀ r ∈ l, r.status = RefundStatus.pending ∨
      r.status = RefundStatus.failed) :
    refund_sum_cp l = 0 := by
  unfold refund_sum_cp
  have : l.filter (fun r => decide (r.status = .completed ∨
      r.status = .processing)) = [] := by
    rw [List.filter_eq_nil_iff]
    intro r hr
    rcases h r hr with h1 | h1 <;> simp [h1]
  rw [this]
  rfl

/-- C10: the refund-balance check sums only completed and processing
refunds — prepending any pending or failed rows leaves validation
unchanged — so on a refundable order whose existing refunds are all
pending or failed, a manual refund request for any amount up to the
full order total is accepted and persisted as a new pending row, no
matter how many pending rows (of whatever amounts) already exist. -/
theorem C10_pending_refunds_reserve_no_balance :
    (∀ (total : ℚ) (extra refunds : List RefundRow) (v : ℚ),
      (∀ r ∈ extra, r.status = RefundStatus.pending ∨
        r.status = RefundStatus.failed) →
      validate_amount total (extra ++ refunds) v =
        validate_amount total refunds v) ∧
    (∀ (o : Order) (refunds : List RefundRow) (actor : UserId)
      (amount : ℚ) (reason : String),
      o.can_be_refunded = true →
      (∀ r ∈ refunds, r.status = RefundStatus.pending ∨
        r.status = RefundStatus.failed) →
      1 / 100 ≤ amount → amount ≤ o.total_amount →
      create_refund o refunds actor true false amount reason =
        .created { amount := amount, reason := reason,
                   status := .pending, created_by := some actor }) := by
  constructor
  · intro total extra refunds v hpf
    have hsum : refund_sum_cp (extra ++ refunds) =
        refund_sum_cp refunds := by
      unfold refund_sum_cp
      rw [List.filter_append]
      have : extra.filter (fun r => decide (r.status = .completed ∨
          r.status = .processing)) = [] := by
        rw [List.filter_eq_nil_iff]
        intro r hr
        rcases hpf r hr with h1 | h1 <;> simp [h1]
      rw [this]
      rfl
    unfold validate_amount
    rw [hsum]
  · intro o refunds actor amount reason href hpf hmin hmax
    unfold create_refund validate_refund_request validate_amount
    rw [if_neg (by simp), if_neg (by simp [href]),
      if_neg (not_lt.mpr hmin), if_neg (not_lt.mpr hmax),
      if_neg (by rw [refund_sum_cp_of_pf refunds hpf]; simpa
        using not_lt.mpr hmax)]

/-- A pending refund row for the full order total, shaped like the
automatic cancellation refund. -/
def pending_full_refund : RefundRow :=
  { amount := 100, reason := "Automatic refund for cancellation: no",
    status := .pending, created_by := some 7 }

/-- C10 witness: on a paid, confirmed order with total 100.00 that
already carries a pending full-total refund row, a manual refund for
the full 100.00 is accepted, and the amounts of all refund rows then
sum to 200.00, exceeding the order total. -/
theorem C10_witness :
    create_refund paid_confirmed_order [pending_full_refund] 9 true
        false 100 "manual" =
      .created ({ amount := 100, reason := "manual",
                  status := .pending,
                  created_by := some 9 } : RefundRow) ∧
    ((({ amount := 100, reason := "manual", status := .pending,
         created_by := some 9 } : RefundRow) ::
       [pending_full_refund]).map RefundRow.amount).sum >
      paid_confirmed_order.total_amount := by
  constructor
  · exact C10_pending_refunds_reserve_no_balance.2
      paid_confirmed_order [pending_full_refund] 9 100 "manual"
      (by decide)
      (by intro r hr; simp only [List.mem_singleton] at hr
          rw [hr]; exact Or.inl rfl)
      (by norm_num) (by norm_num [paid_confirmed_order])
  · norm_num [pending_full_refund, paid_confirmed_order]

end Fincart
